import Mathlib

/-!
Shallow embedding of the PPVmedia repository's conversation-driving core
(`src/ppv_flow.py`) and the service-endpoint guard (`src/main.py`).

The environment (`Env`) models the external world: photo download, entity
lookups, the stream of bot responses (each `wait_for_response` either yields
the next message or times out), and the outcomes of the fallible requests the
flow explicitly guards with try/except.  Awaited operations whose exceptions
the source does not catch (plain `send_message`, button clicks, conversation
entry/exit) are modelled as total actions recorded in a transcript.

State (`St`) counts how many waits, selection attempts and retry iterations
have been consumed, so the oracle functions in `Env` are indexed per call.
-/

namespace PPVmedia

/-! ### Strings: Python `in` (substring) and `str.lower()` -/

/-- Python-style list prefix test, used by the substring test below. -/
def strPrefAux : List Char → List Char → Bool
  | [], _ => true
  | _ :: _, [] => false
  | a :: as, b :: bs => a == b && strPrefAux as bs

/-- `substrAux pat hay`: does `pat` occur contiguously inside `hay`? -/
def substrAux (pat : List Char) : List Char → Bool
  | [] => pat.isEmpty
  | c :: rest => strPrefAux pat (c :: rest) || substrAux pat rest

/-- Python `pat in hay` substring containment on strings. -/
def strContains (hay pat : String) : Bool :=
  substrAux pat.data hay.data

/-- Python `s.lower()` (ASCII case folding, as `Char.toLower` performs). -/
def strLower (s : String) : String :=
  ⟨s.data.map Char.toLower⟩

/-! ### Data model: controls and incoming messages -/

/-- A control (inline button) on an incoming message.  `callback` models
`KeyboardButtonCallback` with its opaque payload, `requestPeer` models
`KeyboardButtonRequestPeer` with its `button_id`; everything else is inert. -/
inductive Button where
  | callback (label : String) (payload : String)
  | requestPeer (label : String) (buttonId : Int)
  | inert (label : String)
deriving Repr, DecidableEq

/-- The visible label of a control (`button.text` in Telethon). -/
def Button.text : Button → String
  | .callback l _ => l
  | .requestPeer l _ => l
  | .inert l => l

/-- The `button_id` of a `KeyboardButtonRequestPeer`, if this is one. -/
def Button.requestPeerId : Button → Option Int
  | .requestPeer _ i => some i
  | _ => none

/-- An incoming message from the bot: id, text and button rows
(`message.buttons` / `message.reply_markup.rows`, rows in order). -/
structure Msg where
  id : Nat
  text : String
  buttons : List (List Button)
deriving Repr, DecidableEq

/-! ### Flow errors and results -/

/-- The distinct `PPVFlowError` raise sites of `ppv_flow.py`, one constructor
per site (§7 taxonomy: MediaFetchFailed, BotTimeout, ControlNotFound,
PeerNotFound, ContactNotEstablished, ...). -/
inductive FlowError where
  | mediaFetchFailed
  | botLookupFailed
  | botTimeout (timeoutSecs : Nat)
  | controlNotFound
  | peerNotFound (username : String)
  | peerSelectFailed
  | contactNotEstablished
  | tryAgainNotFound
deriving Repr, DecidableEq

/-- The human-readable message attached to each `PPVFlowError` raise site. -/
def FlowError.message : FlowError → String
  | .mediaFetchFailed => "Failed to download photo"
  | .botLookupFailed => "Failed to find @staccerbot"
  | .botTimeout t => "Bot did not respond within " ++ toString t ++ " seconds"
  | .controlNotFound => "Could not find user selection button"
  | .peerNotFound u => "Could not find user @" ++ u
  | .peerSelectFailed => "Failed to select user"
  | .contactNotEstablished =>
      "Cannot send PPV: no recent exchange with user and retries exhausted"
  | .tryAgainNotFound => "Could not find \x27Try again\x27 button"

/-- The dict returned by `send_ppv` (keys `status`, `message`, `username`). -/
structure FlowResult where
  status : String
  message : String
  username : String
deriving Repr, DecidableEq

deriving instance DecidableEq for Except

/-! ### Observable actions (the transcript) -/

/-- Observable side effects the flow performs, in order.  `selectPeer` is the
structured `SendBotRequestedPeerRequest`; `sendGreeting` / `deleteGreeting`
are the Contact Establisher's quick message and its withdrawal;
`clickRetryData` is `response.click(data=b"sell_refresh")`. -/
inductive Act where
  | sendText (s : String)
  | sendPhoto
  | clickButton (label : String)
  | selectPeer (msgId : Nat) (buttonId : Int)
  | sendGreeting
  | deleteGreeting
  | clickRetryData
deriving Repr, DecidableEq

/-- Outcome of the Contact Establisher's try-block: success, or a failure at
one of its awaited sub-steps (resolving the target, sending the greeting,
deleting it).  All failures are caught by the same `except` and logged. -/
inductive EstablishOutcome where
  | ok
  | atResolve
  | atSend
  | atDelete
deriving Repr, DecidableEq

/-! ### Environment and per-flow state -/

/-- The external world as seen by one `send_ppv` run.  `waits i` is the
outcome of the `i`-th `wait_for_response`: `some m` delivers message `m`,
`none` is a timeout.  The remaining oracles give the outcomes of the fallible
calls the source wraps in try/except, indexed per call. -/
structure Env where
  photoOk : Bool
  botLookupOk : Bool
  waits : Nat → Option Msg
  resolveTargetOk : Nat → Bool
  sendPeerOk : Nat → Bool
  establishOutcome : Nat → EstablishOutcome
  clickDataOk : Nat → Bool

/-- Per-run counters: waits consumed, selection attempts made
(`handle_user_selection` invocations), rejection-retry iterations done. -/
structure St where
  waitIdx : Nat
  selIdx : Nat
  retryIdx : Nat
deriving Repr, DecidableEq

/-- Initial counters for a run. -/
def initSt : St := ⟨0, 0, 0⟩

/-! ### The operations of `ppv_flow.py` -/

/-- `wait_for_response(conv, timeout)`: delivers the next scripted message or
raises `PPVFlowError("Bot did not respond within N seconds")` on timeout. -/
def wait_for_response (env : Env) (st : St) (timeoutSecs : Nat) :
    Except FlowError (Msg × St) :=
  match env.waits st.waitIdx with
  | some m => .ok (m, { st with waitIdx := st.waitIdx + 1 })
  | none => .error (.botTimeout timeoutSecs)

/-- Case-insensitive substring match of a query against a control's label
(`button_text.lower() in button.text.lower()`). -/
def matchesLabel (buttonText : String) (b : Button) : Bool :=
  strContains (strLower b.text) (strLower buttonText)

/-- Row-major scan of `find_and_click_button`: first control in the first row
containing a match. -/
def findButtonRows (buttonText : String) : List (List Button) → Option Button
  | [] => none
  | row :: rest =>
    match row.find? (matchesLabel buttonText) with
    | some b => some b
    | none => findButtonRows buttonText rest

/-- `find_and_click_button(message, button_text)`: returns the control that
was clicked (the source returns `True` and clicks it), or `none` when the
message has no buttons or no label matches (the source returns `False`). -/
def find_and_click_button (message : Msg) (buttonText : String) : Option Button :=
  if message.buttons.isEmpty then none
  else findButtonRows buttonText message.buttons

/-- The `reply_markup.rows` scan of `handle_user_selection`: the `button_id`
of the first `KeyboardButtonRequestPeer`, scanning each row left to right and
breaking out of both loops at the first hit. -/
def findRequestPeerId : List (List Button) → Option Int
  | [] => none
  | row :: rest =>
    match row.findSome? Button.requestPeerId with
    | some i => some i
    | none => findRequestPeerId rest

/-- Python `username.lstrip("@")`: drop every leading `@`. -/
def cleanUsername (username : String) : String :=
  ⟨username.data.dropWhile (· == '@')⟩

/-- `handle_user_selection(client, conv, message, username)`: locate the
RequestPeer control (raise "Could not find user selection button" if absent),
resolve the target user (raise "Could not find user @..." on failure), issue
the structured `SendBotRequestedPeerRequest` (raise "Failed to select user"
on failure), then wait 30s for the bot's reply.  Each invocation consumes one
selection-attempt index.  The third component lists the observable actions
this call performed, in order; callers concatenate them onto the run's
transcript. -/
def handle_user_selection (env : Env) (st : St) (message : Msg)
    (username : String) : (Except FlowError Msg) × St × List Act :=
  let i := st.selIdx
  let st1 := { st with selIdx := i + 1 }
  match findRequestPeerId message.buttons with
  | none => (.error .controlNotFound, st1, [])
  | some buttonId =>
    if env.resolveTargetOk i = false then
      (.error (.peerNotFound (cleanUsername username)), st1, [])
    else if env.sendPeerOk i = false then
      (.error .peerSelectFailed, st1, [])
    else
      match wait_for_response env st1 30 with
      | .ok (resp, st2) => (.ok resp, st2, [.selectPeer message.id buttonId])
      | .error e => (.error e, st1, [.selectPeer message.id buttonId])

/-- The rejection markers of step 5:
`"no exchange" in text.lower() or "48h" in text.lower()`. -/
def isRejection (text : String) : Bool :=
  strContains (strLower text) "no exchange" || strContains (strLower text) "48h"

/-- The Contact Establisher try-block: resolve the target, send "Hey!", sleep
2s, delete the message.  Every exception inside is caught and only logged, so
the block never alters control flow or state; only the transcript records how
far it got. -/
def establishContact (env : Env) (st : St) : List Act :=
  match env.establishOutcome st.retryIdx with
  | .ok => [.sendGreeting, .deleteGreeting]
  | .atResolve => []
  | .atSend => []
  | .atDelete => [.sendGreeting]

/-- The retry-control activation: `response.click(data=b"sell_refresh")`,
falling back on a label scan for "Try again"; if both fail, raise
`PPVFlowError("Could not find 'Try again' button")`. -/
def clickTryAgain (env : Env) (resp : Msg) (st : St) :
    (Except FlowError Unit) × St × List Act :=
  let r := st.retryIdx
  let st1 := { st with retryIdx := r + 1 }
  if env.clickDataOk r then (.ok (), st1, [.clickRetryData])
  else
    match find_and_click_button resp "Try again" with
    | some b => (.ok (), st1, [.clickButton b.text])
    | none => (.error .tryAgainNotFound, st1, [])

/-- Step 5's `while retry_count <= max_retries` loop.  `fuel` is
`max_retries + 1 - retry_count`, so `fuel = 0` is the (unreachable from the
top-level call) case in which the while-condition is false and execution
falls through with the current response.  On a rejected response the count is
incremented; if it then exceeds `max_retries` (here: `fuel` was about to hit
0) the loop raises ContactNotEstablished, otherwise it runs the Contact
Establisher, activates the retry control, awaits the next prompt and loops. -/
def selectionLoop (env : Env) (username : String) :
    Nat → Msg → St → (Except FlowError Msg) × St × List Act
  | 0, msg, st => (.ok msg, st, [])
  | fuel + 1, msg, st =>
    match handle_user_selection env st msg username with
    | (.error e, st1, a1) => (.error e, st1, a1)
    | (.ok resp, st1, a1) =>
      if isRejection resp.text then
        if fuel == 0 then
          (.error .contactNotEstablished, st1, a1)
        else
          let a2 := establishContact env st1
          match clickTryAgain env resp st1 with
          | (.error e, st3, a3) => (.error e, st3, a1 ++ a2 ++ a3)
          | (.ok _, st3, a3) =>
            match wait_for_response env st3 30 with
            | .error e => (.error e, st3, a1 ++ a2 ++ a3)
            | .ok (m, st4) =>
              match selectionLoop env username fuel m st4 with
              | (r, st5, a5) => (r, st5, a1 ++ a2 ++ a3 ++ a5)
      else (.ok resp, st1, a1)

/-- Step 3: activate an "Empty" control if one matches, otherwise send the
literal text "Empty"; in both cases await the next response (30s). -/
def captionStep (env : Env) (response : Msg) (st : St) :
    (Except FlowError Msg) × St × List Act :=
  let a1 :=
    match find_and_click_button response "Empty" with
    | some b => [Act.clickButton b.text]
    | none => [Act.sendText "Empty"]
  match wait_for_response env st 30 with
  | .ok (m, st2) => (.ok m, st2, a1)
  | .error e => (.error e, st, a1)

/-- The terminal-confirmation section: wait 60s; on a reply containing "done"
or "sent" return the success dict; a `PPVFlowError` timeout is caught, and if
the last accepted response contained "preparing" the provisional success dict
is returned.  In every other case (reply without the success cues, or timeout
without "preparing") execution falls out of the conversation block and
returns the generic "PPV flow completed" success dict. -/
def finalStep (env : Env) (username : String) (response : Msg) (st : St) :
    (Except FlowError FlowResult) × St :=
  match wait_for_response env st 60 with
  | .ok (finalResponse, st2) =>
    if strContains (strLower finalResponse.text) "done"
        || strContains (strLower finalResponse.text) "sent" then
      (.ok ⟨"success", "PPV sent successfully", username⟩, st2)
    else
      (.ok ⟨"success", "PPV flow completed", username⟩, st2)
  | .error _ =>
    if strContains (strLower response.text) "preparing" then
      (.ok ⟨"success", "PPV submitted for sending", username⟩, st)
    else
      (.ok ⟨"success", "PPV flow completed", username⟩, st)

/-- `send_ppv(client, photo_url, username, stars)`: download the photo, look
up the bot, then run the six-step conversation: `/sell`, photo, caption step,
stars amount, the peer-selection loop (max 2 retries), and the terminal
confirmation. -/
def send_ppv (env : Env) (username : String) (stars : Nat) :
    (Except FlowError FlowResult) × St × List Act :=
  if env.photoOk = false then (.error .mediaFetchFailed, initSt, [])
  else if env.botLookupOk = false then (.error .botLookupFailed, initSt, [])
  else
    let tr0 : List Act := [.sendText "/sell"]
    match wait_for_response env initSt 30 with
    | .error e => (.error e, initSt, tr0)
    | .ok (_resp1, st1) =>
      let tr1 := tr0 ++ [.sendPhoto]
      match wait_for_response env st1 30 with
      | .error e => (.error e, st1, tr1)
      | .ok (resp2, st2) =>
        match captionStep env resp2 st2 with
        | (.error e, st3, a3) => (.error e, st3, tr1 ++ a3)
        | (.ok _resp3, st3, a3) =>
          let tr4 := tr1 ++ a3 ++ [.sendText (toString stars)]
          match wait_for_response env st3 30 with
          | .error e => (.error e, st3, tr4)
          | .ok (resp4, st4) =>
            match selectionLoop env username 3 resp4 st4 with
            | (.error e, st5, a5) => (.error e, st5, tr4 ++ a5)
            | (.ok accepted, st5, a5) =>
              match finalStep env username accepted st5 with
              | (r, st6) => (r, st6, tr4 ++ a5)

/-! ### The service endpoint guard (`src/main.py`) -/

/-- The request body of `POST /send-ppv`. -/
structure SendPPVRequest where
  photo_url : String
  username : String
  stars : Nat

/-- The success body of `POST /send-ppv`. -/
structure SendPPVResponse where
  status : String
  message : String
  username : String
deriving Repr, DecidableEq

/-- `send_ppv_endpoint`: ensure the client is connected, switch the business
bot to staccerbot, run the flow inside `try`, and in the `finally` clause
switch back to kimfeetguru exactly once — a failure of that restore call is
caught inside the `finally` and logged, never raised.  The second component
counts the restore invocations.  A flow error surfaces as an HTTP 500 whose
message is the flow error's own message. -/
def send_ppv_endpoint (ensureOk activateOk restoreOk : Bool) (env : Env)
    (req : SendPPVRequest) : (Except String SendPPVResponse) × Nat :=
  if ensureOk = false then (.error "client not authorized", 0)
  else if activateOk = false then (.error "failed to switch business bot", 0)
  else
    let flowResult := (send_ppv env req.username req.stars).1
    let restoreCalls :=
      match restoreOk with
      | true => 1
      | false => 1
    match flowResult with
    | .ok r => (.ok ⟨r.status, r.message, r.username⟩, restoreCalls)
    | .error e => (.error e.message, restoreCalls)

/-! ### Concrete scripts (the §8 scenario and its variants) -/

/-- Step-1 reply of the scripted scenario. -/
def msgSell : Msg := ⟨1, "Will do. Send a photo or a video to start, boss.", []⟩

/-- Step-2 reply: caption prompt with an "Empty" control. -/
def msgCaption : Msg :=
  ⟨2, "Looks good to me. Now send a caption for the PPV or tap Empty",
    [[.callback "Empty" "caption_empty"]]⟩

/-- Step-3 reply: the price prompt. -/
def msgStars : Msg := ⟨3, "How many Stars we gon take for the PPV?", []⟩

/-- Step-4 reply: peer-selection prompt with a PeerRequest control, id 7. -/
def msgSelect : Msg :=
  ⟨4, "Bet. Who should I send the PPV to, boss?", [[.requestPeer "Select User" 7]]⟩

/-- Accepted selection reply containing the "preparing" cue. -/
def msgPreparing : Msg := ⟨5, "On it boss, preparing your PPV now.", []⟩

/-- Terminal confirmation containing the "sent" cue. -/
def msgDone : Msg := ⟨6, "Done deal, PPV sent.", []⟩

/-- Accepted selection reply with no redeeming cue at all. -/
def msgAccepted : Msg := ⟨5, "Gotcha boss.", []⟩

/-- Rejection reply carrying both rejection markers and a retry control. -/
def msgReject : Msg :=
  ⟨9, "No exchange with this user in the last 48h, boss.",
    [[.callback "Try again" "sell_refresh"]]⟩

/-- Rejection reply with no controls at all. -/
def msgRejectBare : Msg :=
  ⟨9, "No exchange with this user in the last 48h, boss.", []⟩

/-- An environment that plays the given finite script of responses (the
`i`-th wait gets the `i`-th message; past the end, every wait times out) and
in which every fallible call succeeds. -/
def scriptEnv (script : List Msg) : Env :=
  ⟨true, true, fun i => script.get? i, fun _ => true, fun _ => true,
    fun _ => .ok, fun _ => true⟩

/-- The six-message scripted scenario of §8. -/
def env8 : Env :=
  scriptEnv [msgSell, msgCaption, msgStars, msgSelect, msgPreparing, msgDone]

/-- §8 scenario cut short: the terminal confirmation never arrives. -/
def env8timeout : Env :=
  scriptEnv [msgSell, msgCaption, msgStars, msgSelect, msgPreparing]

/-- Selection accepted with no cue, then the terminal confirmation never
arrives. -/
def envNoCue : Env :=
  scriptEnv [msgSell, msgCaption, msgStars, msgSelect, msgAccepted]

/-- Every selection attempt is rejected; retry controls always work. -/
def envRejectAll : Env :=
  scriptEnv [msgSell, msgCaption, msgStars, msgSelect, msgReject, msgSelect,
    msgReject, msgSelect, msgReject]

/-- One rejection, then an accepted attempt and a terminal confirmation. -/
def envOneReject : Env :=
  scriptEnv [msgSell, msgCaption, msgStars, msgSelect, msgReject, msgSelect,
    msgPreparing, msgDone]

/-- `envOneReject` with the Contact Establisher failing as dictated by `f`. -/
def envOneRejectFail (f : Nat → EstablishOutcome) : Env :=
  { envOneReject with establishOutcome := f }

/-- One rejection whose reply has no retry control, and the opaque-payload
click fails as well. -/
def envRetryDead : Env :=
  { scriptEnv [msgSell, msgCaption, msgStars, msgSelect, msgRejectBare] with
      clickDataOk := fun _ => false }

/-- An environment in which resolving the target username always fails. -/
def envNoResolve : Env :=
  { scriptEnv [] with resolveTargetOk := fun _ => false }

/-- An environment in which the very first wait already times out. -/
def envAllTimeout : Env :=
  ⟨true, true, fun _ => none, fun _ => true, fun _ => true, fun _ => .ok,
    fun _ => true⟩

/-- A placeholder message for instantiating universally quantified messages. -/
def msgBlank : Msg := ⟨0, "", []⟩


/-! ### Helper lemmas -/

/-- The row-major scan of `find_and_click_button` is the first match in the
row-major flattening of the button rows. -/
theorem findButtonRows_eq_find_flatten (q : String) (rows : List (List Button)) :
    findButtonRows q rows = rows.flatten.find? (matchesLabel q) := by
  induction rows with
  | nil => rfl
  | cons row rest ih =>
    cases h : row.find? (matchesLabel q) <;>
      simp [findButtonRows, h, List.find?_append, ih]

/-- The row-major scan of `handle_user_selection` yields the `button_id` of
the first RequestPeer control in the row-major flattening. -/
theorem findRequestPeerId_eq_flatten (rows : List (List Button)) :
    findRequestPeerId rows = rows.flatten.findSome? Button.requestPeerId := by
  induction rows with
  | nil => rfl
  | cons row rest ih =>
    cases h : row.findSome? Button.requestPeerId <;>
      simp [findRequestPeerId, h, List.findSome?_append, ih]

/-- Updating the Contact Establisher oracle changes no other `Env` field. -/
theorem update_establish_photoOk (env : Env) (f : Nat → EstablishOutcome) :
    ({ env with establishOutcome := f } : Env).photoOk = env.photoOk := rfl

/-- Updating the Contact Establisher oracle changes no other `Env` field. -/
theorem update_establish_botLookupOk (env : Env) (f : Nat → EstablishOutcome) :
    ({ env with establishOutcome := f } : Env).botLookupOk = env.botLookupOk := rfl

/-- Updating the Contact Establisher oracle does not change
`handle_user_selection` (it never consults that oracle). -/
theorem handle_user_selection_establish_irrel (env : Env)
    (f : Nat → EstablishOutcome) (st : St) (m : Msg) (u : String) :
    handle_user_selection { env with establishOutcome := f } st m u =
      handle_user_selection env st m u := rfl

/-- Updating the Contact Establisher oracle does not change the retry-control
activation. -/
theorem clickTryAgain_establish_irrel (env : Env) (f : Nat → EstablishOutcome)
    (resp : Msg) (st : St) :
    clickTryAgain { env with establishOutcome := f } resp st =
      clickTryAgain env resp st := rfl

/-- Updating the Contact Establisher oracle does not change waiting. -/
theorem wait_for_response_establish_irrel (env : Env)
    (f : Nat → EstablishOutcome) (st : St) (t : Nat) :
    wait_for_response { env with establishOutcome := f } st t =
      wait_for_response env st t := rfl

/-- Updating the Contact Establisher oracle does not change the caption step. -/
theorem captionStep_establish_irrel (env : Env) (f : Nat → EstablishOutcome)
    (resp : Msg) (st : St) :
    captionStep { env with establishOutcome := f } resp st =
      captionStep env resp st := rfl

/-- Updating the Contact Establisher oracle does not change the terminal
confirmation step. -/
theorem finalStep_establish_irrel (env : Env) (f : Nat → EstablishOutcome)
    (u : String) (resp : Msg) (st : St) :
    finalStep { env with establishOutcome := f } u resp st =
      finalStep env u resp st := rfl

/-- The result and final counters of the peer-selection loop are independent
of the Contact Establisher's outcomes: those only shape the transcript. -/
theorem selectionLoop_establish_irrel (env : Env) (f : Nat → EstablishOutcome)
    (u : String) : ∀ (fuel : Nat) (m : Msg) (st : St),
    (selectionLoop { env with establishOutcome := f } u fuel m st).1 =
      (selectionLoop env u fuel m st).1 ∧
    (selectionLoop { env with establishOutcome := f } u fuel m st).2.1 =
      (selectionLoop env u fuel m st).2.1 := by
  intro fuel
  induction fuel with
  | zero => intro m st; exact ⟨rfl, rfl⟩
  | succ n ih =>
    intro m st
    simp only [selectionLoop, handle_user_selection_establish_irrel,
      clickTryAgain_establish_irrel, wait_for_response_establish_irrel]
    obtain ⟨r, st1, a1⟩ := handle_user_selection env st m u
    cases r with
    | error e => simp
    | ok resp =>
      simp only
      by_cases hrej : isRejection resp.text <;> simp only [hrej]
      · cases n with
        | zero => simp
        | succ k =>
          simp only [Nat.succ_ne_zero, beq_iff_eq, if_false]
          obtain ⟨rc, st3, a3⟩ := clickTryAgain env resp st1
          cases rc with
          | error e => simp
          | ok _ =>
            simp only
            cases hw : wait_for_response env st3 30 with
            | error e => simp [hw]
            | ok p =>
              obtain ⟨m2, st4⟩ := p
              simp only [hw]
              rcases h5 : selectionLoop { env with establishOutcome := f } u
                  (k + 1) m2 st4 with ⟨r5, st5, a5⟩
              rcases h6 : selectionLoop env u (k + 1) m2 st4 with ⟨r5', st5', a5'⟩
              have h2 := ih m2 st4
              rw [h5, h6] at h2
              simp only at h2
              obtain ⟨hr, hst⟩ := h2
              subst hr hst
              simp
      · simp

/-- The result and final counters of `send_ppv` are independent of the
Contact Establisher's outcomes. -/
theorem send_ppv_establish_irrel (env : Env) (f : Nat → EstablishOutcome)
    (u : String) (stars : Nat) :
    (send_ppv { env with establishOutcome := f } u stars).1 =
      (send_ppv env u stars).1 ∧
    (send_ppv { env with establishOutcome := f } u stars).2.1 =
      (send_ppv env u stars).2.1 := by
  simp only [send_ppv, update_establish_photoOk, update_establish_botLookupOk,
    wait_for_response_establish_irrel, captionStep_establish_irrel,
    finalStep_establish_irrel]
  by_cases hp : env.photoOk = false
  · simp [hp]
  · rw [if_neg hp, if_neg hp]
    by_cases hb : env.botLookupOk = false
    · simp [hb]
    · rw [if_neg hb, if_neg hb]
      cases h0 : wait_for_response env initSt 30 with
      | error e => simp
      | ok p1 =>
        obtain ⟨r1, st1⟩ := p1
        simp only
        cases h1 : wait_for_response env st1 30 with
        | error e => simp
        | ok p2 =>
          obtain ⟨resp2, st2⟩ := p2
          simp only
          obtain ⟨r3, st3, a3⟩ := captionStep env resp2 st2
          cases r3 with
          | error e => simp
          | ok m3 =>
            simp only
            cases h3 : wait_for_response env st3 30 with
            | error e => simp
            | ok p4 =>
              obtain ⟨resp4, st4⟩ := p4
              simp only
              rcases h5 : selectionLoop { env with establishOutcome := f } u 3
                  resp4 st4 with ⟨r5, st5, a5⟩
              rcases h6 : selectionLoop env u 3 resp4 st4 with ⟨r5', st5', a5'⟩
              have hsel := selectionLoop_establish_irrel env f u 3 resp4 st4
              rw [h5, h6] at hsel
              simp only at hsel
              obtain ⟨hr, hst⟩ := hsel
              rw [hr, hst]
              cases r5' with
              | error e => simp
              | ok acc => simp


/-- `find_and_click_button` equals the first row-major match over the
flattened button rows (the `isEmpty` early exit agrees with the scan). -/
theorem find_and_click_eq_flatten (message : Msg) (buttonText : String) :
    find_and_click_button message buttonText =
      message.buttons.flatten.find? (matchesLabel buttonText) := by
  unfold find_and_click_button
  by_cases h : message.buttons.isEmpty
  · rw [if_pos h]
    have heq : message.buttons = [] := by simpa using h
    rw [heq]
    rfl
  · rw [if_neg h]
    exact findButtonRows_eq_find_flatten buttonText message.buttons

/-! ### The claims -/

/-- Claim C1: for every flow invocation through the service endpoint —
whatever the flow does in environment `env`, including failing at any step —
the restore switch back to the original bot identity runs exactly once in the
cleanup phase, and the endpoint's response is determined by the flow's own
result alone: it is the same whether the restore call succeeds (`r1`) or
fails (`r2`), and it surfaces exactly the flow's success payload or the flow
error's message. -/
theorem restore_guard_invariant (env : Env) (req : SendPPVRequest)
    (r1 r2 : Bool) :
    (send_ppv_endpoint true true r1 env req).2 = 1 ∧
    (send_ppv_endpoint true true r1 env req).1 =
      (send_ppv_endpoint true true r2 env req).1 ∧
    (send_ppv_endpoint true true r1 env req).1 =
      (match (send_ppv env req.username req.stars).1 with
        | .ok r => .ok ⟨r.status, r.message, r.username⟩
        | .error e => .error e.message) := by
  cases r1 <;> cases r2 <;>
    cases h : (send_ppv env req.username req.stars).1 <;>
      simp [send_ppv_endpoint, h]

/-- Claim C2: if every selection attempt's response carries a rejection
marker, the flow makes exactly 3 selection attempts (`selIdx = 3`, one
`handle_user_selection` invocation per attempt — never a fourth), runs the
rejection recovery exactly twice (`retryIdx = 2`), and fails with the
ContactNotEstablished error. -/
theorem selection_retries_bounded (env : Env) (username : String) (stars : Nat)
    (m0 m1 m2 m3 m4 m5 m6 m7 m8 : Msg) (b3 b5 b7 : Int)
    (hphoto : env.photoOk = true) (hbot : env.botLookupOk = true)
    (h0 : env.waits 0 = some m0) (h1 : env.waits 1 = some m1)
    (h2 : env.waits 2 = some m2) (h3 : env.waits 3 = some m3)
    (h4 : env.waits 4 = some m4) (h5 : env.waits 5 = some m5)
    (h6 : env.waits 6 = some m6) (h7 : env.waits 7 = some m7)
    (h8 : env.waits 8 = some m8)
    (hp3 : findRequestPeerId m3.buttons = some b3)
    (hp5 : findRequestPeerId m5.buttons = some b5)
    (hp7 : findRequestPeerId m7.buttons = some b7)
    (hr4 : isRejection m4.text = true) (hr6 : isRejection m6.text = true)
    (hr8 : isRejection m8.text = true)
    (hres0 : env.resolveTargetOk 0 = true)
    (hres1 : env.resolveTargetOk 1 = true)
    (hres2 : env.resolveTargetOk 2 = true)
    (hsend0 : env.sendPeerOk 0 = true) (hsend1 : env.sendPeerOk 1 = true)
    (hsend2 : env.sendPeerOk 2 = true)
    (hc0 : env.clickDataOk 0 = true) (hc1 : env.clickDataOk 1 = true) :
    (send_ppv env username stars).1 = .error .contactNotEstablished ∧
    (send_ppv env username stars).2.1.selIdx = 3 ∧
    (send_ppv env username stars).2.1.retryIdx = 2 := by
  refine ⟨?_, ?_, ?_⟩ <;>
    simp [send_ppv, hphoto, hbot, wait_for_response, initSt, captionStep,
      selectionLoop, handle_user_selection, clickTryAgain, establishContact,
      h0, h1, h2, h3, h4, h5, h6, h7, h8, hp3, hp5, hp7, hr4, hr6, hr8,
      hres0, hres1, hres2, hsend0, hsend1, hsend2, hc0, hc1]

/-- Claim C2 witness: with a transport that rejects all three attempts, the
run fails with ContactNotEstablished after exactly 3 attempts and 2 retry
iterations. -/
theorem selection_retries_bounded_witness :
    (send_ppv envRejectAll "user" 50).1 = .error .contactNotEstablished ∧
    (send_ppv envRejectAll "user" 50).2.1.selIdx = 3 ∧
    (send_ppv envRejectAll "user" 50).2.1.retryIdx = 2 :=
  selection_retries_bounded envRejectAll "user" 50 msgSell msgCaption msgStars
    msgSelect msgReject msgSelect msgReject msgSelect msgReject 7 7 7
    rfl rfl rfl rfl rfl rfl rfl rfl rfl rfl rfl rfl rfl
    rfl rfl rfl rfl rfl rfl rfl rfl rfl rfl rfl rfl

/-- Claim C3 counterexample: the terminal-confirmation wait times out, the
last previously seen response ("Gotcha boss.") contains no redeeming cue (no
"preparing"), yet the flow's result is a Success ("PPV flow completed"), not
a Failure of kind BotTimeout: the terminal `except PPVFlowError` block falls
through without re-raising. -/
theorem terminal_timeout_no_cue_yields_success :
    envNoCue.waits 5 = none ∧
    strContains (strLower msgAccepted.text) "preparing" = false ∧
    (send_ppv envNoCue "user" 50).1 =
      .ok ⟨"success", "PPV flow completed", "user"⟩ :=
  ⟨rfl, rfl, rfl⟩

/-- Claim C3 as amended: for each of the five awaits preceding the terminal
confirmation (steps 1–4 and the selection response on the no-rejection path),
exceeding the timeout makes the flow fail with BotTimeout; the terminal
confirmation's timeout, when the last seen response lacks "preparing",
instead yields the generic Success "PPV flow completed". -/
theorem timeout_failure_amended (env : Env) (username : String) (stars : Nat)
    (m0 m1 m2 m3 m4 : Msg) (b : Int)
    (hphoto : env.photoOk = true) (hbot : env.botLookupOk = true) :
    (env.waits 0 = none →
      (send_ppv env username stars).1 = .error (.botTimeout 30)) ∧
    (env.waits 0 = some m0 → env.waits 1 = none →
      (send_ppv env username stars).1 = .error (.botTimeout 30)) ∧
    (env.waits 0 = some m0 → env.waits 1 = some m1 → env.waits 2 = none →
      (send_ppv env username stars).1 = .error (.botTimeout 30)) ∧
    (env.waits 0 = some m0 → env.waits 1 = some m1 → env.waits 2 = some m2 →
      env.waits 3 = none →
      (send_ppv env username stars).1 = .error (.botTimeout 30)) ∧
    (env.waits 0 = some m0 → env.waits 1 = some m1 → env.waits 2 = some m2 →
      env.waits 3 = some m3 → findRequestPeerId m3.buttons = some b →
      env.resolveTargetOk 0 = true → env.sendPeerOk 0 = true →
      env.waits 4 = none →
      (send_ppv env username stars).1 = .error (.botTimeout 30)) ∧
    (env.waits 0 = some m0 → env.waits 1 = some m1 → env.waits 2 = some m2 →
      env.waits 3 = some m3 → findRequestPeerId m3.buttons = some b →
      env.resolveTargetOk 0 = true → env.sendPeerOk 0 = true →
      env.waits 4 = some m4 → isRejection m4.text = false →
      strContains (strLower m4.text) "preparing" = false →
      env.waits 5 = none →
      (send_ppv env username stars).1 =
        .ok ⟨"success", "PPV flow completed", username⟩) := by
  refine ⟨?_, ?_, ?_, ?_, ?_, ?_⟩
  · intro h0
    simp [send_ppv, hphoto, hbot, wait_for_response, initSt, h0]
  · intro h0 h1
    simp [send_ppv, hphoto, hbot, wait_for_response, initSt, h0, h1]
  · intro h0 h1 h2
    simp [send_ppv, hphoto, hbot, wait_for_response, initSt, captionStep,
      h0, h1, h2]
  · intro h0 h1 h2 h3
    simp [send_ppv, hphoto, hbot, wait_for_response, initSt, captionStep,
      h0, h1, h2, h3]
  · intro h0 h1 h2 h3 hp hres hsend h4
    simp [send_ppv, hphoto, hbot, wait_for_response, initSt, captionStep,
      selectionLoop, handle_user_selection, h0, h1, h2, h3, h4, hp, hres,
      hsend]
  · intro h0 h1 h2 h3 hp hres hsend h4 hnorej hnoprep h5
    simp [send_ppv, hphoto, hbot, wait_for_response, initSt, captionStep,
      selectionLoop, handle_user_selection, finalStep, h0, h1, h2, h3, h4,
      h5, hp, hres, hsend, hnorej, hnoprep]

/-- Claim C3 (amended) witness: a transport that never answers makes the
first await time out and the flow fail with BotTimeout. -/
theorem timeout_failure_amended_witness :
    (send_ppv envAllTimeout "user" 50).1 = .error (.botTimeout 30) :=
  (timeout_failure_amended envAllTimeout "user" 50 msgBlank msgBlank msgBlank
    msgBlank msgBlank 0 rfl rfl).1 rfl

/-- Claim C4: when the terminal-confirmation wait times out but the accepted
peer-selection response contained "preparing" (case-insensitive), the flow
returns the provisional Success "PPV submitted for sending". -/
theorem preparing_provisional_success (env : Env) (username : String)
    (stars : Nat) (m0 m1 m2 m3 m4 : Msg) (b : Int)
    (hphoto : env.photoOk = true) (hbot : env.botLookupOk = true)
    (h0 : env.waits 0 = some m0) (h1 : env.waits 1 = some m1)
    (h2 : env.waits 2 = some m2) (h3 : env.waits 3 = some m3)
    (h4 : env.waits 4 = some m4)
    (hpeer : findRequestPeerId m3.buttons = some b)
    (hres : env.resolveTargetOk 0 = true) (hsend : env.sendPeerOk 0 = true)
    (hnorej : isRejection m4.text = false)
    (hprep : strContains (strLower m4.text) "preparing" = true)
    (h5 : env.waits 5 = none) :
    (send_ppv env username stars).1 =
      .ok ⟨"success", "PPV submitted for sending", username⟩ := by
  simp [send_ppv, hphoto, hbot, wait_for_response, initSt, captionStep,
    selectionLoop, handle_user_selection, finalStep, h0, h1, h2, h3, h4, h5,
    hpeer, hres, hsend, hnorej, hprep]

/-- Claim C4 witness: the §8 script cut off before the terminal
confirmation: the "preparing" reply downgrades the timeout to a provisional
Success. -/
theorem preparing_provisional_success_witness :
    (send_ppv env8timeout "test_user" 100).1 =
      .ok ⟨"success", "PPV submitted for sending", "test_user"⟩ :=
  preparing_provisional_success env8timeout "test_user" 100 msgSell msgCaption
    msgStars msgSelect msgPreparing 7 rfl rfl rfl rfl rfl rfl rfl rfl rfl rfl
    rfl rfl rfl

/-- Claim C5: when the terminal confirmation arrives within the budget and
contains "done" or "sent" (case-insensitive), the flow returns the Success
"PPV sent successfully" carrying the input username. -/
theorem terminal_done_sent_success (env : Env) (username : String)
    (stars : Nat) (m0 m1 m2 m3 m4 mf : Msg) (b : Int)
    (hphoto : env.photoOk = true) (hbot : env.botLookupOk = true)
    (h0 : env.waits 0 = some m0) (h1 : env.waits 1 = some m1)
    (h2 : env.waits 2 = some m2) (h3 : env.waits 3 = some m3)
    (h4 : env.waits 4 = some m4)
    (hpeer : findRequestPeerId m3.buttons = some b)
    (hres : env.resolveTargetOk 0 = true) (hsend : env.sendPeerOk 0 = true)
    (hnorej : isRejection m4.text = false)
    (h5 : env.waits 5 = some mf)
    (hdone : strContains (strLower mf.text) "done" = true ∨
      strContains (strLower mf.text) "sent" = true) :
    (send_ppv env username stars).1 =
      .ok ⟨"success", "PPV sent successfully", username⟩ := by
  rcases hdone with hd | hd <;>
    simp [send_ppv, hphoto, hbot, wait_for_response, initSt, captionStep,
      selectionLoop, handle_user_selection, finalStep, h0, h1, h2, h3, h4,
      h5, hpeer, hres, hsend, hnorej, hd]

/-- Claim C5 witness: the six-message scripted scenario of §8 yields exactly
`{status: success, message: "PPV sent successfully", username: test_user}`. -/
theorem terminal_done_sent_success_witness :
    (send_ppv env8 "test_user" 100).1 =
      .ok ⟨"success", "PPV sent successfully", "test_user"⟩ :=
  terminal_done_sent_success env8 "test_user" 100 msgSell msgCaption msgStars
    msgSelect msgPreparing msgDone 7 rfl rfl rfl rfl rfl rfl rfl rfl rfl rfl
    rfl rfl (Or.inr rfl)

/-- Claim C6: the Peer-Selection Responder uses the first PeerRequest control
in row-major order; with no PeerRequest control it fails with
ControlNotFound, and when resolving the target fails it fails with
PeerNotFound — in both cases performing no observable action (in particular
issuing no structured peer reply). -/
theorem peer_selection_responder_errors (env : Env) (st : St) (msg : Msg)
    (username : String) :
    findRequestPeerId msg.buttons =
      msg.buttons.flatten.findSome? Button.requestPeerId ∧
    (findRequestPeerId msg.buttons = none →
      handle_user_selection env st msg username =
        (.error .controlNotFound, { st with selIdx := st.selIdx + 1 }, [])) ∧
    (∀ b, findRequestPeerId msg.buttons = some b →
      env.resolveTargetOk st.selIdx = false →
      handle_user_selection env st msg username =
        (.error (.peerNotFound (cleanUsername username)),
          { st with selIdx := st.selIdx + 1 }, [])) := by
  refine ⟨findRequestPeerId_eq_flatten msg.buttons, ?_, ?_⟩
  · intro h
    simp [handle_user_selection, h]
  · intro b hb hres
    simp [handle_user_selection, hb, hres]

/-- Claim C6 witness: a prompt without a PeerRequest control fails with
ControlNotFound; a failing directory resolution fails with PeerNotFound; no
action is performed in either case. -/
theorem peer_selection_responder_errors_witness :
    handle_user_selection (scriptEnv []) initSt msgSell "user" =
      (.error .controlNotFound, ⟨0, 1, 0⟩, []) ∧
    handle_user_selection envNoResolve initSt msgSelect "@user" =
      (.error (.peerNotFound "user"), ⟨0, 1, 0⟩, []) :=
  ⟨(peer_selection_responder_errors (scriptEnv []) initSt msgSell "user").2.1
      rfl,
    (peer_selection_responder_errors envNoResolve initSt msgSelect
      "@user").2.2 7 rfl rfl⟩

/-- Claim C7: the Button/Control Resolver is the first case-insensitive
substring match over the row-major flattening of the control rows; when a
matching control exists it activates one and reports it, with no controls or
no match it reports none (no failure — it is a total function), and a
control labeled "Empty ✨" matches the request "empty". -/
theorem button_resolver_first_match (message : Msg) (buttonText : String) :
    find_and_click_button message buttonText =
      message.buttons.flatten.find? (matchesLabel buttonText) ∧
    ((∃ btn ∈ message.buttons.flatten, matchesLabel buttonText btn = true) →
      ∃ btn, find_and_click_button message buttonText = some btn ∧
        matchesLabel buttonText btn = true) ∧
    (message.buttons = [] →
      find_and_click_button message buttonText = none) ∧
    find_and_click_button ⟨2, "caption prompt", [[.callback "Empty ✨" "x"]]⟩
        "empty" = some (.callback "Empty ✨" "x") := by
  refine ⟨find_and_click_eq_flatten message buttonText, ?_, ?_, rfl⟩
  · intro hex
    rw [find_and_click_eq_flatten]
    have hs : (message.buttons.flatten.find? (matchesLabel buttonText)).isSome := by
      rw [List.find?_isSome]
      obtain ⟨btn, hmem, hmatch⟩ := hex
      exact ⟨btn, hmem, hmatch⟩
    obtain ⟨b2, hb2⟩ := Option.isSome_iff_exists.mp hs
    exact ⟨b2, hb2, List.find?_some hb2⟩
  · intro h
    rw [find_and_click_eq_flatten, h]
    rfl

/-- Claim C7 witness: the §8 caption prompt's "Empty" control is found and
activated for the request "Empty". -/
theorem button_resolver_first_match_witness :
    ∃ btn, find_and_click_button msgCaption "Empty" = some btn ∧
      matchesLabel "Empty" btn = true :=
  (button_resolver_first_match msgCaption "Empty").2.1
    ⟨.callback "Empty" "caption_empty", by decide, by decide⟩

/-- Claim C8: in the caption step, when some control's label contains
"Empty" (case-insensitive), the step activates the resolver's first match
and then awaits the next response; when no control matches (in particular
when there are no controls), it submits the literal text "Empty" instead and
then awaits the next response. -/
theorem caption_step_behavior (env : Env) (response : Msg) (st : St) :
    (response.buttons.flatten.any (matchesLabel "Empty") = true →
      ∃ b, find_and_click_button response "Empty" = some b ∧
        matchesLabel "Empty" b = true ∧
        captionStep env response st =
          (match wait_for_response env st 30 with
            | .ok (m, st2) => (.ok m, st2, [Act.clickButton b.text])
            | .error e => (.error e, st, [Act.clickButton b.text]))) ∧
    (response.buttons.flatten.any (matchesLabel "Empty") = false →
      captionStep env response st =
        (match wait_for_response env st 30 with
          | .ok (m, st2) => (.ok m, st2, [Act.sendText "Empty"])
          | .error e => (.error e, st, [Act.sendText "Empty"]))) := by
  constructor
  · intro hany
    have hs : (response.buttons.flatten.find? (matchesLabel "Empty")).isSome := by
      rw [List.find?_isSome]
      exact List.any_eq_true.mp hany
    obtain ⟨b, hb⟩ := Option.isSome_iff_exists.mp hs
    have hfb : find_and_click_button response "Empty" = some b := by
      rw [find_and_click_eq_flatten, hb]
    refine ⟨b, hfb, List.find?_some hb, ?_⟩
    simp only [captionStep, hfb]
  · intro hany
    have hnone : response.buttons.flatten.find? (matchesLabel "Empty") = none := by
      rw [List.find?_eq_none]
      intro x hx hpx
      have hcontra : response.buttons.flatten.any (matchesLabel "Empty") = true :=
        List.any_eq_true.mpr ⟨x, hx, hpx⟩
      rw [hany] at hcontra
      exact Bool.false_ne_true hcontra
    have hfb : find_and_click_button response "Empty" = none := by
      rw [find_and_click_eq_flatten, hnone]
    simp only [captionStep, hfb]

/-- Claim C8 witness: on the §8 caption prompt the "Empty" control is
activated and the next scripted response is awaited. -/
theorem caption_step_behavior_witness :
    ∃ b, find_and_click_button msgCaption "Empty" = some b ∧
      matchesLabel "Empty" b = true ∧
      captionStep env8 msgCaption ⟨2, 0, 0⟩ =
        (match wait_for_response env8 ⟨2, 0, 0⟩ 30 with
          | .ok (m, st2) => (.ok m, st2, [Act.clickButton b.text])
          | .error e => (.error e, ⟨2, 0, 0⟩, [Act.clickButton b.text])) :=
  (caption_step_behavior env8 msgCaption ⟨2, 0, 0⟩).1 rfl

/-- Claim C9: Contact Establisher failures are swallowed: the flow's result
and final counters are identical for every pattern of Contact Establisher
outcomes, and concretely, a rejection recovery in which the establisher
fails at each of its sub-steps (resolving the target, sending the greeting,
withdrawing it) still proceeds to the retry-control activation
(`clickRetryData` is performed) and the flow still succeeds. -/
theorem contact_establisher_swallowed :
    (∀ (env : Env) (f : Nat → EstablishOutcome) (username : String)
      (stars : Nat),
      (send_ppv { env with establishOutcome := f } username stars).1 =
        (send_ppv env username stars).1 ∧
      (send_ppv { env with establishOutcome := f } username stars).2.1 =
        (send_ppv env username stars).2.1) ∧
    ((send_ppv (envOneRejectFail fun _ => .atResolve) "user" 50).1 =
        .ok ⟨"success", "PPV sent successfully", "user"⟩ ∧
      Act.clickRetryData ∈
        (send_ppv (envOneRejectFail fun _ => .atResolve) "user" 50).2.2) ∧
    ((send_ppv (envOneRejectFail fun _ => .atSend) "user" 50).1 =
        .ok ⟨"success", "PPV sent successfully", "user"⟩ ∧
      Act.clickRetryData ∈
        (send_ppv (envOneRejectFail fun _ => .atSend) "user" 50).2.2) ∧
    ((send_ppv (envOneRejectFail fun _ => .atDelete) "user" 50).1 =
        .ok ⟨"success", "PPV sent successfully", "user"⟩ ∧
      Act.clickRetryData ∈
        (send_ppv (envOneRejectFail fun _ => .atDelete) "user" 50).2.2) :=
  ⟨fun env f username stars => send_ppv_establish_irrel env f username stars,
    ⟨by decide, by decide⟩, ⟨by decide, by decide⟩, ⟨by decide, by decide⟩⟩

/-- Claim C10: in the rejection-recovery branch, when the opaque-payload
click fails and no label contains "Try again" either, the flow aborts with
the "Could not find 'Try again' button" failure and performs no further
selection attempt (`selIdx` stays at 1). -/
theorem try_again_failure_aborts (env : Env) (username : String) (stars : Nat)
    (m0 m1 m2 m3 m4 : Msg) (b : Int)
    (hphoto : env.photoOk = true) (hbot : env.botLookupOk = true)
    (h0 : env.waits 0 = some m0) (h1 : env.waits 1 = some m1)
    (h2 : env.waits 2 = some m2) (h3 : env.waits 3 = some m3)
    (h4 : env.waits 4 = some m4)
    (hpeer : findRequestPeerId m3.buttons = some b)
    (hres : env.resolveTargetOk 0 = true) (hsend : env.sendPeerOk 0 = true)
    (hrej : isRejection m4.text = true)
    (hclick : env.clickDataOk 0 = false)
    (hfb : find_and_click_button m4 "Try again" = none) :
    (send_ppv env username stars).1 = .error .tryAgainNotFound ∧
    (send_ppv env username stars).2.1.selIdx = 1 ∧
    FlowError.message .tryAgainNotFound =
      "Could not find \x27Try again\x27 button" := by
  refine ⟨?_, ?_, rfl⟩ <;>
    simp [send_ppv, hphoto, hbot, wait_for_response, initSt, captionStep,
      selectionLoop, handle_user_selection, clickTryAgain, establishContact,
      h0, h1, h2, h3, h4, hpeer, hres, hsend, hrej, hclick, hfb]

/-- Claim C10 witness: a rejection whose reply offers no retry control,
combined with a failing opaque-payload click, aborts the flow after the
single selection attempt. -/
theorem try_again_failure_aborts_witness :
    (send_ppv envRetryDead "user" 50).1 = .error .tryAgainNotFound ∧
    (send_ppv envRetryDead "user" 50).2.1.selIdx = 1 ∧
    FlowError.message .tryAgainNotFound =
      "Could not find \x27Try again\x27 button" :=
  try_again_failure_aborts envRetryDead "user" 50 msgSell msgCaption msgStars
    msgSelect msgRejectBare 7 rfl rfl rfl rfl rfl rfl rfl rfl rfl rfl rfl
    rfl rfl

end PPVmedia
